import Mathlib

/-!
Shallow embedding of the gcontributor scheduling/idempotency engine
(src/src/gcontributor/Main.py, DataAccess.py, Converter.py).

`Main` composes three collaborators: an `IConverter` producing a plan
(`CommitDict`, a date-to-count mapping), a `Commiter` performing the daily
commits, and a `DataAccess` store holding the plan and the run log.  The
bodies of every `DataAccess` method in src are bare `pass` stubs, and
`Commiter.py` is not part of src at all, so those operations are modelled
from the spec (each such definition says so in its doc comment); the control
flow of `Main.run`, `Main._runCommit` and `Main.setupPlan` is translated
line by line from Main.py.

Side effects are made observable: each embedded procedure returns the
updated store, the trace of collaborator and store calls it performed
(`Event`), and the exception it raised, if any (`Err`).
-/

namespace GContributor

/-- Calendar dates are opaque keys for the engine; we model them as
natural numbers. -/
abbrev Date := Nat

/-- `CommitDict` (gcontributor.CustTypes, the plan type produced by
`IConverter.convert`): a mapping from dates to the number of commits planned
for that date, modelled as an association list with the spec invariant that
dates are unique left implicit (lookup takes the first binding). -/
abbrev CommitDict := List (Date × Nat)

/-- Durable state owned by `DataAccess`: the persisted plan and the run log.
`plan = none` models that no plan has been durably written yet, so
`getStatus` is false. -/
structure Store where
  plan : Option CommitDict
  runLog : List Date
  deriving DecidableEq, Repr

/-- Modelled from the spec: `DataAccess.createDict` (spec: `savePlan`) has a
bare `pass` body in src; per spec section 4.1 it durably writes the plan,
overwriting any previous one. -/
def createDict (s : Store) (commits : CommitDict) : Store :=
  ⟨some commits, s.runLog⟩

/-- Modelled from the spec: `DataAccess.readDate` (spec: `countFor`) has a
bare `pass` body in src; per spec section 4.1 it returns the planned count
for the date and 0 for any date absent from the plan, never an error. -/
def readDate (s : Store) (date : Date) : Nat :=
  match s.plan with
  | none => 0
  | some commits => (commits.lookup date).getD 0

/-- Modelled from the spec: `DataAccess.getStatus` (spec: `isInitialized`)
has a bare `pass` body in src; true iff a plan has been durably written. -/
def getStatus (s : Store) : Bool :=
  s.plan.isSome

/-- Modelled from the spec: `DataAccess.hasRun` has a bare `pass` body in
src; true iff the date is in the run log. -/
def hasRun (s : Store) (date : Date) : Bool :=
  s.runLog.contains date

/-- Modelled from the spec: `DataAccess.logRun` (spec: `markRun`) has a bare
`pass` body in src; adds the date to the run log. -/
def logRun (s : Store) (date : Date) : Store :=
  ⟨s.plan, date :: s.runLog⟩

/-- The plan entry for a date: `some c` when the date is in the persisted
plan with count `c`, `none` when no plan is written or the date is absent. -/
def planLookup (s : Store) (date : Date) : Option Nat :=
  s.plan.bind (fun commits => commits.lookup date)

/-- Observable calls made by the engine: store operations (each carrying the
date it was given), collaborator invocations, and trigger registration.
`commitCall n ok` records that `Commiter.commit` was invoked with count `n`
and reported result `ok`. -/
inductive Event where
  | getStatusQ : Event
  | convertCall : Event
  | createDictCall : CommitDict → Event
  | hasRunQ : Date → Event
  | readDateQ : Date → Event
  | commitCall : Nat → Bool → Event
  | logRunCall : Date → Event
  | scheduleRegister : Event
  deriving DecidableEq, Repr

/-- Exceptions the embedded procedures can raise.
`convertFailed` models `IConverter.convert` raising (spec: SourceUnreachable
or MalformedSource); `saveFailed` and `logRunFailed` model StorageFailure in
`createDict` and `logRun`; `hasRunArityError` models the `TypeError` raised
by the call `self._data_accesor.hasRun()` on Main.py line 26, which omits
the required `date` parameter of `DataAccess.hasRun(self, date)`. -/
inductive Err where
  | convertFailed : Err
  | saveFailed : Err
  | logRunFailed : Err
  | hasRunArityError : Err
  deriving DecidableEq, Repr

/-- Behaviour of the external collaborators and of the storage medium for
one embedded call.  `convertResult = none` models `IConverter.convert`
raising.  `commitOk n` is the success/failure result that `Commiter.commit`
reports when invoked with count `n` — modelled from the spec:
`Commiter.py` is not part of src, and spec section 4.3 gives
`ActionExecutor.perform(count) -> Result` reporting success or failure by
its return value. -/
structure Env where
  convertResult : Option CommitDict
  saveFails : Bool
  logRunFails : Bool
  commitOk : Nat → Bool

/-- Result of one embedded procedure call: the store afterwards, the trace
of observable calls, and the exception raised, if any.  On an exception the
store and trace reflect the effects performed before the raise. -/
structure Outcome where
  store : Store
  events : List Event
  err : Option Err
  deriving Repr

/-- Shallow embedding of `Main._runCommit` (Main.py lines 31-41).  `today`
is the value of `datetime.date.today()` captured once at entry.  The source
checks `hasRun(today)` and returns early if true; otherwise it reads the
planned count, calls `self._commiter.commit(commit_num)` — discarding the
value `commit` returns — and unconditionally calls `logRun(today)`. -/
def runCommit (env : Env) (s : Store) (today : Date) : Outcome :=
  if hasRun s today then
    ⟨s, [Event.hasRunQ today], none⟩
  else
    let commit_num := readDate s today
    let ok := env.commitOk commit_num
    if env.logRunFails then
      ⟨s,
       [Event.hasRunQ today, Event.readDateQ today,
        Event.commitCall commit_num ok, Event.logRunCall today],
       some Err.logRunFailed⟩
    else
      ⟨logRun s today,
       [Event.hasRunQ today, Event.readDateQ today,
        Event.commitCall commit_num ok, Event.logRunCall today],
       none⟩

/-- Shallow embedding of `Main.setupPlan` (Main.py lines 43-48):
`commit_plan = self._converter.convert()` followed by
`self._data_accesor.createDict(commit_plan)`; an exception raised by either
call propagates to the caller.  (The call site passes no `srcUri`, so the
source identifier of the converter is part of the environment.) -/
def setupPlan (env : Env) (s : Store) : Outcome :=
  match env.convertResult with
  | none => ⟨s, [Event.convertCall], some Err.convertFailed⟩
  | some commit_plan =>
    if env.saveFails then
      ⟨s, [Event.convertCall, Event.createDictCall commit_plan],
       some Err.saveFailed⟩
    else
      ⟨createDict s commit_plan,
       [Event.convertCall, Event.createDictCall commit_plan], none⟩

/-- Shallow embedding of `Main.run` (Main.py lines 20-29).  Line 24 queries
`getStatus()` and line 25 runs `setupPlan()` when it is false.  Line 26
reads `if not self._data_accesor.hasRun():` — `DataAccess.hasRun(self,
date)` requires a `date` argument, so this call raises `TypeError`; the
catch-up `self._runCommit()` on line 27 and the trigger registration on
line 29 are therefore unreachable.  (Line 29,
`schedule.every().data.at(...)`, would itself raise `AttributeError`: the
schedule library job has no attribute named data.) -/
def run (env : Env) (s : Store) : Outcome :=
  let boot := if getStatus s then (⟨s, [], none⟩ : Outcome) else setupPlan env s
  match boot.err with
  | some e => ⟨boot.store, Event.getStatusQ :: boot.events, some e⟩
  | none => ⟨boot.store, Event.getStatusQ :: boot.events, some Err.hasRunArityError⟩

/-- True when every `logRunCall` in the trace comes strictly after some
`commitCall` in the same trace. -/
def logAfterCommit : List Event → Bool
  | [] => true
  | Event.commitCall _ _ :: _ => true
  | Event.logRunCall _ :: _ => false
  | _ :: rest => logAfterCommit rest

/-- The date argument an event passes to a `DataAccess` store operation
(`none` for events that are not date-indexed store operations). -/
def eventDate : Event → Option Date
  | Event.hasRunQ d => some d
  | Event.readDateQ d => some d
  | Event.logRunCall d => some d
  | _ => none

/-- C1: for every date with `hasRun date = true`, `Main._runCommit` returns
at once: the store is unchanged, no exception is raised, and the trace
contains only the `hasRun` query itself — in particular neither
`Commiter.commit` nor `DataAccess.logRun` is invoked. -/
theorem C1_no_double_run (env : Env) (s : Store) (d : Date)
    (h : hasRun s d = true) :
    runCommit env s d = ⟨s, [Event.hasRunQ d], none⟩ := by
  unfold runCommit
  simp [h]

/-- Witness for C1 at a concrete already-run date. -/
theorem C1_no_double_run_witness :
    hasRun ⟨some [(3, 2)], [3]⟩ 3 = true ∧
      runCommit ⟨none, false, false, fun _ => true⟩ ⟨some [(3, 2)], [3]⟩ 3 =
        ⟨⟨some [(3, 2)], [3]⟩, [Event.hasRunQ 3], none⟩ :=
  ⟨by decide, C1_no_double_run ⟨none, false, false, fun _ => true⟩ ⟨some [(3, 2)], [3]⟩ 3 (by decide)⟩

/-- C2 counterexample: on a zero-count day not yet run (date 5, planned
count 0), `Main._runCommit` does invoke `Commiter.commit` — with count 0 —
before marking the date run, so the executor call is not avoided as the
claim states. -/
theorem C2_zero_count_cex :
    hasRun ⟨some [(5, 0)], []⟩ 5 = false ∧
      readDate ⟨some [(5, 0)], []⟩ 5 = 0 ∧
      (runCommit ⟨none, false, false, fun _ => true⟩ ⟨some [(5, 0)], []⟩ 5).events.contains
        (Event.commitCall 0 true) = true := by
  decide

/-- C2 (amended): on any date not yet run whose planned count is 0,
`Main._runCommit` invokes `Commiter.commit` with count 0 (its result is
discarded) and then marks the date run, so `hasRun` becomes true, provided
the run-log write itself does not fail. -/
theorem C2_zero_count_amended (env : Env) (s : Store) (d : Date)
    (h : hasRun s d = false) (hc : readDate s d = 0)
    (hl : env.logRunFails = false) :
    (runCommit env s d).events.contains (Event.commitCall 0 (env.commitOk 0)) = true ∧
      hasRun (runCommit env s d).store d = true := by
  unfold runCommit
  rw [h]
  simp [hc, hl, hasRun, logRun]

/-- Witness for C2 (amended) at a concrete zero-count date. -/
theorem C2_zero_count_amended_witness :
    hasRun ⟨some [(6, 0)], []⟩ 6 = false ∧
      readDate ⟨some [(6, 0)], []⟩ 6 = 0 ∧
      (runCommit ⟨none, false, false, fun _ => true⟩ ⟨some [(6, 0)], []⟩ 6).events.contains
          (Event.commitCall 0 true) = true ∧
        hasRun (runCommit ⟨none, false, false, fun _ => true⟩ ⟨some [(6, 0)], []⟩ 6).store 6 = true :=
  ⟨by decide, by decide,
    C2_zero_count_amended ⟨none, false, false, fun _ => true⟩ ⟨some [(6, 0)], []⟩ 6
      (by decide) (by decide) (by decide)⟩

/-- C3 counterexample: the plan gives date 1 a positive count 3 and the
commit reports failure, yet `Main._runCommit` still calls
`DataAccess.logRun`: afterwards `hasRun` is true, so the date is not
eligible for retry, contradicting the claim. -/
theorem C3_failure_retry_cex :
    hasRun ⟨some [(1, 3)], []⟩ 1 = false ∧
      readDate ⟨some [(1, 3)], []⟩ 1 = 3 ∧
      (⟨none, false, false, fun _ => false⟩ : Env).commitOk 3 = false ∧
      hasRun (runCommit ⟨none, false, false, fun _ => false⟩ ⟨some [(1, 3)], []⟩ 1).store 1 = true := by
  decide

/-- C3 (amended): when `Commiter.commit` reports failure for a not-yet-run
date, `Main._runCommit` nevertheless calls `DataAccess.logRun` — the result
of `commit` is discarded on Main.py line 40 — so `hasRun date` is true
after it returns and the date is not retried (provided the run-log write
itself succeeds). -/
theorem C3_failure_marks_run_amended (env : Env) (s : Store) (d : Date)
    (h : hasRun s d = false) (hl : env.logRunFails = false)
    (_hf : env.commitOk (readDate s d) = false) :
    (runCommit env s d).events.contains (Event.logRunCall d) = true ∧
      hasRun (runCommit env s d).store d = true := by
  unfold runCommit
  rw [h]
  simp [hl, hasRun, logRun]

/-- Witness for C3 (amended) at a concrete failing commit. -/
theorem C3_failure_marks_run_amended_witness :
    hasRun ⟨some [(2, 3)], []⟩ 2 = false ∧
      (runCommit ⟨none, false, false, fun _ => false⟩ ⟨some [(2, 3)], []⟩ 2).events.contains
          (Event.logRunCall 2) = true ∧
        hasRun (runCommit ⟨none, false, false, fun _ => false⟩ ⟨some [(2, 3)], []⟩ 2).store 2 = true :=
  ⟨by decide,
    C3_failure_marks_run_amended ⟨none, false, false, fun _ => false⟩ ⟨some [(2, 3)], []⟩ 2
      (by decide) (by decide) (by decide)⟩

/-- C4 counterexample: on date 2 with positive planned count 4 the commit
reports failure, yet the trace of `Main._runCommit` contains
`logRunCall 2` right after the failed `commitCall` — `markRun` is reached
without a successful perform on a non-zero-count day, contradicting the
claim. -/
theorem C4_order_cex :
    readDate ⟨some [(2, 4)], []⟩ 2 = 4 ∧
      (runCommit ⟨none, false, false, fun _ => false⟩ ⟨some [(2, 4)], []⟩ 2).events =
        [Event.hasRunQ 2, Event.readDateQ 2, Event.commitCall 4 false, Event.logRunCall 2] := by
  decide

/-- C4 (amended): in every `Main._runCommit` trace, `DataAccess.logRun` is
invoked only after `Commiter.commit` has been invoked in that same run —
never before — but regardless of the result `commit` reported, and also on
zero-count days (where `commit` is invoked with count 0 first). -/
theorem C4_log_after_commit_amended (env : Env) (s : Store) (d : Date) :
    logAfterCommit (runCommit env s d).events = true := by
  unfold runCommit
  by_cases h : hasRun s d <;> by_cases hl : env.logRunFails <;>
    simp [h, hl, logAfterCommit]

/-- C5: calling `Main.run` twice in sequence against a store that is
already initialized never invokes `IConverter.convert` (in either call) and
leaves the persisted plan — in fact the whole store — unchanged. -/
theorem C5_idempotent_bootstrap (env env₂ : Env) (s : Store)
    (h : getStatus s = true) :
    Event.convertCall ∉ (run env s).events ∧
      (run env s).store = s ∧
      Event.convertCall ∉ (run env₂ (run env s).store).events ∧
      (run env₂ (run env s).store).store.plan = s.plan := by
  unfold run
  simp [h]

/-- Witness for C5 at a concrete initialized store. -/
theorem C5_idempotent_bootstrap_witness :
    getStatus ⟨some [(0, 1)], []⟩ = true ∧
      Event.convertCall ∉
          (run ⟨some [(9, 9)], true, true, fun _ => true⟩ ⟨some [(0, 1)], []⟩).events ∧
        (run ⟨some [(9, 9)], true, true, fun _ => true⟩ ⟨some [(0, 1)], []⟩).store = ⟨some [(0, 1)], []⟩ ∧
        Event.convertCall ∉
            (run ⟨some [(9, 9)], true, true, fun _ => true⟩
              (run ⟨some [(9, 9)], true, true, fun _ => true⟩ ⟨some [(0, 1)], []⟩).store).events ∧
          (run ⟨some [(9, 9)], true, true, fun _ => true⟩
            (run ⟨some [(9, 9)], true, true, fun _ => true⟩ ⟨some [(0, 1)], []⟩).store).store.plan =
            some [(0, 1)] :=
  ⟨by decide,
    C5_idempotent_bootstrap ⟨some [(9, 9)], true, true, fun _ => true⟩
      ⟨some [(9, 9)], true, true, fun _ => true⟩ ⟨some [(0, 1)], []⟩ (by decide)⟩

/-- C6 (code bug): with the plan initialized and an empty run log,
`Main.run` raises the `TypeError` from the argument-less `hasRun()` call on
line 26 before any catch-up `_runCommit` executes: the outcome carries
`hasRunArityError`, the store is unchanged, and the trace holds only the
`getStatus` query — no commit, no run-log write, no trigger registration. -/
theorem C6_run_crashes_before_catchup :
    getStatus ⟨some [(7, 2)], []⟩ = true ∧
      hasRun ⟨some [(7, 2)], []⟩ 7 = false ∧
      run ⟨none, false, false, fun _ => true⟩ ⟨some [(7, 2)], []⟩ =
        ⟨⟨some [(7, 2)], []⟩, [Event.getStatusQ], some Err.hasRunArityError⟩ := by
  refine ⟨by decide, by decide, ?_⟩
  rfl

/-- C7: `DataAccess.readDate` returns the planned count for a date present
in the plan, returns 0 for a date absent from the plan (also when no plan
is written at all), and is a total function into `Nat` — it never signals
an error. -/
theorem C7_count_for (s : Store) (d : Date) :
    (∀ c, planLookup s d = some c → readDate s d = c) ∧
      (planLookup s d = none → readDate s d = 0) := by
  unfold planLookup readDate
  cases s.plan with
  | none => simp
  | some commits =>
    refine ⟨fun c hc => ?_, fun hc => ?_⟩
    · show (commits.lookup d).getD 0 = c
      rw [show commits.lookup d = some c from hc]
      rfl
    · show (commits.lookup d).getD 0 = 0
      rw [show commits.lookup d = none from hc]
      rfl

/-- Witness for C7: a date present in the plan and an absent one. -/
theorem C7_count_for_witness :
    readDate ⟨some [(4, 9)], []⟩ 4 = 9 ∧ readDate ⟨some [(4, 9)], []⟩ 11 = 0 :=
  ⟨(C7_count_for ⟨some [(4, 9)], []⟩ 4).1 9 (by decide),
    (C7_count_for ⟨some [(4, 9)], []⟩ 11).2 (by decide)⟩

/-- C8: a failure reported by `Commiter.commit` never escapes
`Main._runCommit`: whenever the run-log medium itself is healthy,
`_runCommit` raises no exception — for every environment, in particular
one in which every commit reports failure. -/
theorem C8_action_failure_contained (env : Env) (s : Store) (d : Date)
    (hl : env.logRunFails = false) :
    (runCommit env s d).err = none := by
  unfold runCommit
  by_cases h : hasRun s d <;> simp [h, hl]

/-- Witness for C8 with an always-failing commit. -/
theorem C8_action_failure_contained_witness :
    (⟨none, false, false, fun _ => false⟩ : Env).commitOk 3 = false ∧
      (runCommit ⟨none, false, false, fun _ => false⟩ ⟨some [(0, 3)], []⟩ 0).err = none :=
  ⟨by decide,
    C8_action_failure_contained ⟨none, false, false, fun _ => false⟩ ⟨some [(0, 3)], []⟩ 0 (by decide)⟩

/-- C9: when bootstrap is needed (no plan written) and the converter or the
initial save fails, `Main.run` surfaces that bootstrap failure as its
raised exception, leaves the plan unwritten, and never registers the daily
trigger. -/
theorem C9_bootstrap_failure (env : Env) (s : Store)
    (h : getStatus s = false)
    (hf : env.convertResult = none ∨ env.saveFails = true) :
    ((run env s).err = some Err.convertFailed ∨ (run env s).err = some Err.saveFailed) ∧
      (run env s).store.plan = s.plan ∧
      Event.scheduleRegister ∉ (run env s).events := by
  unfold run setupPlan
  rw [h]
  match hc : env.convertResult with
  | none => simp
  | some commit_plan =>
    rcases hf with hf | hf
    · rw [hc] at hf
      exact absurd hf (by simp)
    · simp [hf]

/-- Witness for C9 with a failing converter on an uninitialized store. -/
theorem C9_bootstrap_failure_witness :
    getStatus ⟨none, []⟩ = false ∧
      ((run ⟨none, false, false, fun _ => true⟩ ⟨none, []⟩).err = some Err.convertFailed ∨
          (run ⟨none, false, false, fun _ => true⟩ ⟨none, []⟩).err = some Err.saveFailed) ∧
        (run ⟨none, false, false, fun _ => true⟩ ⟨none, []⟩).store.plan = none ∧
        Event.scheduleRegister ∉ (run ⟨none, false, false, fun _ => true⟩ ⟨none, []⟩).events :=
  ⟨by decide,
    C9_bootstrap_failure ⟨none, false, false, fun _ => true⟩ ⟨none, []⟩ (by decide) (Or.inl rfl)⟩

/-- C10: every date-indexed store operation inside one `Main._runCommit`
invocation uses the single date captured at entry: every date occurring in
the trace equals `today`. -/
theorem C10_single_date (env : Env) (s : Store) (today : Date) :
    ((runCommit env s today).events.filterMap eventDate).all (fun d => d == today) = true := by
  unfold runCommit
  by_cases h : hasRun s today <;> by_cases hl : env.logRunFails <;>
    simp [h, hl, eventDate]

end GContributor
